import Mathlib

/-!
# Verification of the analytics-engine job queue and processor

A shallow embedding of `src/analytics-engine/src/services/message_queue.py`:
the Redis-backed `MessageQueueService` (publish, consume, job-status upsert)
and the `JobProcessor` per-queue consumption loop, together with theorems
settling the specification's claims about them.

Modelling conventions:
* JSON values are the inductive `JVal`; a JSON object (Python `dict` produced
  by `json.loads`) is an association list `JObj`.
* The Redis key/value result store is an association list `ResultStore`
  mapping keys to decoded `JobRecord`s (the code stores `json.dumps` of the
  record and decodes on read; we keep records decoded, which is faithful
  because the codec round-trips).  The `setex` 24-hour TTL is not modelled:
  no claim concerns expiry.
* Timestamps (`datetime.utcnow().isoformat()`) are abstract `Nat` instants
  passed in explicitly as `now`.
* A Redis list is a Lean list whose head is the Redis head (the `LPUSH`
  side); `BRPOP` removes the last element of the Lean list.
* The wire payload of a queued message is `Wire`: `json.dumps` always yields
  a well-formed document (`Wire.json v`); `json.loads` succeeds exactly on
  well-formed payloads and raises on `Wire.malformed` ones.
-/

set_option autoImplicit false

namespace MessageQueue

/-- A JSON value, as produced by Python's `json.loads`. -/
inductive JVal where
  | jnull
  | jbool (b : Bool)
  | jnum (n : Int)
  | jstr (s : String)
  | jarr (elems : List JVal)
  | jobj (fields : List (String × JVal))

/-- A JSON object (Python `dict`): an association list of fields. -/
abbrev JObj := List (String × JVal)

/-- Python truthiness (`if x:`) of a JSON value: `None`, `False`, `0`, `""`,
`[]` and `{}` are falsy, everything else truthy. -/
def pyTruthy : JVal → Bool
  | .jnull => false
  | .jbool b => b
  | .jnum n => n != 0
  | .jstr s => !s.isEmpty
  | .jarr elems => !elems.isEmpty
  | .jobj fields => !fields.isEmpty

mutual
/-- Python `repr` of a JSON value (used by `str` on containers).  Exact on
the scalar values `json.loads` can produce; container rendering follows
Python's structural `repr` format.  No theorem exercises container ids: the
wire contract types `id` as a string. -/
def pyRepr : JVal → String
  | .jnull => "None"
  | .jbool true => "True"
  | .jbool false => "False"
  | .jnum n => toString n
  | .jstr s => "\x27" ++ s ++ "\x27"
  | .jarr elems => "[" ++ pyReprElems elems ++ "]"
  | .jobj fields => "\x7b" ++ pyReprFields fields ++ "\x7d"

/-- Comma-separated `repr` of list elements. -/
def pyReprElems : List JVal → String
  | [] => ""
  | [v] => pyRepr v
  | v :: w :: rest => pyRepr v ++ ", " ++ pyReprElems (w :: rest)

/-- Comma-separated `repr` of object fields. -/
def pyReprFields : List (String × JVal) → String
  | [] => ""
  | [(k, v)] => "\x27" ++ k ++ "\x27: " ++ pyRepr v
  | (k, v) :: p :: rest =>
      "\x27" ++ k ++ "\x27: " ++ pyRepr v ++ ", " ++ pyReprFields (p :: rest)
end

/-- Python `str` of a JSON value: the string itself for `str`, `repr`
otherwise (matching f-string interpolation of decoded JSON values). -/
def pyStr : JVal → String
  | .jstr s => s
  | v => pyRepr v

/-- `dict.get k` on a decoded JSON object: the value of the first field
named `k`, if any. -/
def jget : JObj → String → Option JVal
  | [], _ => none
  | (k', v) :: rest, k => if k' = k then some v else jget rest k

/-- The decoded job-record document stored under `job_result:<job_id>`
(wire shape `{"jobId", "status", "result"?, "errorMessage"?, "completedAt"?}`).
Optional fields are `none` when absent from the document. -/
structure JobRecord where
  jobId : String
  status : String
  result : Option JObj := none
  errorMessage : Option String := none
  completedAt : Option Nat := none

/-- The Redis key/value store of job records, as an association list. -/
abbrev ResultStore := List (String × JobRecord)

/-- Redis `GET`: the value stored under `k`, if any. -/
def storeGet : ResultStore → String → Option JobRecord
  | [], _ => none
  | (k', v) :: rest, k => if k' = k then some v else storeGet rest k

/-- Redis `SETEX` (TTL not modelled): store `v` under `k`, replacing any
existing entry. -/
def storeSet : ResultStore → String → JobRecord → ResultStore
  | [], k, v => [(k, v)]
  | (k', v') :: rest, k, v =>
      if k' = k then (k, v) :: rest else (k', v') :: storeSet rest k v

/-- The result-store key for a job: `f"job_result:{job_id}"`. -/
def resultKey (job_id : String) : String := "job_result:" ++ job_id

/-- Python truthiness of `result: Optional[Dict]`: `None` and `{}` falsy. -/
def truthyOptObj : Option JObj → Bool
  | none => false
  | some fields => !fields.isEmpty

/-- Python truthiness of `error_message: Optional[str]`: `None` and `""` falsy. -/
def truthyOptStr : Option String → Bool
  | none => false
  | some s => !s.isEmpty

/-- The record-level body of `MessageQueueService.update_job_status`: take the
existing record (or synthesize `{"jobId": job_id, "status": "pending"}` when
absent), set `status`, conditionally set `result` and `errorMessage` on
truthiness of the arguments, and stamp `completedAt` with the current time
when the new status is terminal. -/
def applyStatusUpdate (now : Nat) (existing : Option JobRecord) (job_id : String)
    (status : String) (result : Option JObj) (error_message : Option String) :
    JobRecord :=
  let job_result : JobRecord :=
    match existing with
    | some r => r
    | none => { jobId := job_id, status := "pending" }
  let job_result := { job_result with status := status }
  let job_result :=
    if truthyOptObj result then { job_result with result := result } else job_result
  let job_result :=
    if truthyOptStr error_message then
      { job_result with errorMessage := error_message }
    else job_result
  if status ∈ (["completed", "failed"] : List String) then
    { job_result with completedAt := some now }
  else job_result

/-- `MessageQueueService.update_job_status` (the spec's `set_status`): read
the record under `job_result:<job_id>`, apply the update, write the merged
record back. -/
def update_job_status (now : Nat) (st : ResultStore) (job_id : String)
    (status : String) (result : Option JObj) (error_message : Option String) :
    ResultStore :=
  let result_key := resultKey job_id
  storeSet st result_key
    (applyStatusUpdate now (storeGet st result_key) job_id status result error_message)

/-- `MessageQueueService.get_job_result` (the spec's `get_status`): the record
under `job_result:<job_id>`, or `none`. -/
def get_job_result (st : ResultStore) (job_id : String) : Option JobRecord :=
  storeGet st (resultKey job_id)

/-- The `status` field of a job's record, when the record exists. -/
def statusOf (st : ResultStore) (job_id : String) : Option String :=
  (get_job_result st job_id).map (·.status)

/-- The `result` field of a job's record, when the record exists and carries it. -/
def resultOf (st : ResultStore) (job_id : String) : Option JObj :=
  (get_job_result st job_id).bind (·.result)

/-- The `errorMessage` field of a job's record, when present. -/
def errorMessageOf (st : ResultStore) (job_id : String) : Option String :=
  (get_job_result st job_id).bind (·.errorMessage)

/-- The `completedAt` field of a job's record, when present. -/
def completedAtOf (st : ResultStore) (job_id : String) : Option Nat :=
  (get_job_result st job_id).bind (·.completedAt)

/-! ## Queue transport and the consumption loop -/

/-- A wire payload sitting on a Redis list.  `json.dumps` of a message always
yields a well-formed document (`Wire.json v`); `Wire.malformed raw` is any
byte string that `json.loads` rejects. -/
inductive Wire where
  | json (v : JVal)
  | malformed (raw : String)

/-- Redis `LPUSH`: insert at the head of the list. -/
def lpush (q : List Wire) (w : Wire) : List Wire := w :: q

/-- Redis `BRPOP` (ignoring the blocking timeout): remove the element at the
tail of the list, when there is one. -/
def brpop : List Wire → Option (Wire × List Wire)
  | [] => none
  | w :: rest =>
      match brpop rest with
      | none => some (w, [])
      | some (v, rest') => some (v, w :: rest')

/-- `MessageQueueService.publish_message`: serialize the message, `LPUSH` it
onto the named queue, and `PUBLISH` the same serialized payload on the
`"<queue_name>:notification"` channel.  The notification log records every
published (channel, payload) pair in order. -/
def publish_message (queue : List Wire) (notifications : List (String × Wire))
    (queue_name : String) (message : JVal) : List Wire × List (String × Wire) :=
  let message_json := Wire.json message
  (lpush queue message_json,
   notifications ++ [(queue_name ++ ":notification", message_json)])

/-- `json.loads` on a wire payload: the decoded value for a well-formed
document, an exception (carrying the raw payload) otherwise. -/
def loads : Wire → Except String JVal
  | .json v => .ok v
  | .malformed raw => .error raw

/-- The observable outcome of one iteration of `JobProcessor._consume_queue`. -/
inductive StepEvent where
  | idle
  | discarded
  | loopError (e : String)
  | completedJob (job_id : String)
  | failedJob (job_id : String) (e : String)
deriving DecidableEq

/-- What one loop iteration does with a dequeued wire payload (the body of
`_consume_queue` after `brpop`, with `consume_message`'s `json.loads`
inlined): decode it, drop falsy messages and messages without a truthy `id`,
otherwise write `processing`, run the handler, and write the terminal record.
A decode failure (or a well-formed non-`dict` document, whose `.get` raises
`AttributeError`) propagates to the loop's outer `except`, which logs and
backs off — `StepEvent.loopError` — without touching the result store.
The handler `h` models `processor_func`: `.ok` is a returned result,
`.error` a raised exception rendered by `str(e)`. -/
def processWire (h : JObj → Except String JObj) (now : Nat) (st : ResultStore) :
    Wire → ResultStore × StepEvent
  | .malformed raw => (st, .loopError raw)
  | .json v =>
      if pyTruthy v then
        match v with
        | .jobj message =>
            match jget message "id" with
            | some idv =>
                if pyTruthy idv then
                  let job_id := pyStr idv
                  let st1 := update_job_status now st job_id "processing" none none
                  match h message with
                  | .ok result =>
                      (update_job_status now st1 job_id "completed" (some result) none,
                       .completedJob job_id)
                  | .error e =>
                      (update_job_status now st1 job_id "failed" none (some e),
                       .failedJob job_id e)
                else (st, .discarded)
            | none => (st, .discarded)
        | _ => (st, .loopError "AttributeError")
      else (st, .discarded)

/-- The mutable state one consumption loop sees: its queue and the shared
result store. -/
structure LoopState where
  queue : List Wire
  store : ResultStore

/-- One iteration of `JobProcessor._consume_queue`: `brpop` the queue (an
empty pop is the idle timeout path) and process the dequeued payload. -/
def consumeStep (h : JObj → Except String JObj) (now : Nat) (s : LoopState) :
    LoopState × StepEvent :=
  match brpop s.queue with
  | none => (s, .idle)
  | some (w, queue') =>
      let (store', ev) := processWire h now s.store w
      ({ queue := queue', store := store' }, ev)

/-- `n` successive iterations of the consumption loop, collecting the event
trace in order. -/
def runSteps (h : JObj → Except String JObj) (now : Nat) :
    Nat → LoopState → LoopState × List StepEvent
  | 0, s => (s, [])
  | n + 1, s =>
      let (s1, ev) := consumeStep h now s
      let (s2, evs) := runSteps h now n s1
      (s2, ev :: evs)

/-- Process a list of wire payloads in the given order against the result
store (the consumption order semantics of a drained queue). -/
def runQueue (h : JObj → Except String JObj) (now : Nat) :
    List Wire → ResultStore → ResultStore × List StepEvent
  | [], st => (st, [])
  | w :: ws, st =>
      let (st1, ev) := processWire h now st w
      let (st2, evs) := runQueue h now ws st1
      (st2, ev :: evs)

/-- The tag of each mock processor coroutine bound at `JobProcessor.start`. -/
inductive ProcTag where
  | dataProcessing
  | modelTraining
  | prediction
  | visualization
  | statisticalAnalysis
deriving DecidableEq

/-- The consumer loops launched by `JobProcessor.start`: one task per queue,
each bound to its processor. -/
def startConsumers : List (String × ProcTag) :=
  [("analytics:data_processing", .dataProcessing),
   ("analytics:model_training", .modelTraining),
   ("analytics:prediction", .prediction),
   ("analytics:visualization", .visualization),
   ("analytics:statistical_analysis", .statisticalAnalysis)]

/-- The five recognized job kinds. -/
def recognizedKinds : List String :=
  ["data_processing", "model_training", "prediction", "visualization",
   "statistical_analysis"]

/-! ## A sequence of status-update calls (for store-level invariants) -/

/-- One `update_job_status` call, with its ambient timestamp. -/
structure Call where
  now : Nat
  jobId : String
  status : String
  result : Option JObj
  errorMessage : Option String

/-- Apply a sequence of `update_job_status` calls in order. -/
def runCalls : ResultStore → List Call → ResultStore
  | st, [] => st
  | st, c :: cs =>
      runCalls (update_job_status c.now st c.jobId c.status c.result c.errorMessage) cs

/-- Whether the job's record exists and carries a `result` field. -/
def hasResult (st : ResultStore) (job_id : String) : Bool :=
  match resultOf st job_id with
  | some _ => true
  | none => false

/-- Whether the job's record exists and carries an `errorMessage` field. -/
def hasError (st : ResultStore) (job_id : String) : Bool :=
  match errorMessageOf st job_id with
  | some _ => true
  | none => false

/-- A handler that always succeeds with a fixed result (a concrete
`processor_func` instance for closed evaluations). -/
def okHandler : JObj → Except String JObj :=
  fun _ => .ok [("success", .jbool true)]

/-- A handler that always raises, with `str(e)` rendering to `e` (a concrete
failing `processor_func` instance for closed evaluations). -/
def failHandler (e : String) : JObj → Except String JObj :=
  fun _ => .error e

/-! ## Store and queue lemmas -/

theorem storeGet_storeSet_self (st : ResultStore) (k : String) (v : JobRecord) :
    storeGet (storeSet st k v) k = some v := by
  induction st with
  | nil => simp [storeSet, storeGet]
  | cons p rest ih =>
      obtain ⟨k', v'⟩ := p
      by_cases h : k' = k
      · simp [storeSet, storeGet, h]
      · simp [storeSet, storeGet, h, ih]

theorem storeGet_storeSet_ne (st : ResultStore) {k k2 : String} (v : JobRecord)
    (h : k2 ≠ k) : storeGet (storeSet st k v) k2 = storeGet st k2 := by
  induction st with
  | nil => simp [storeSet, storeGet, Ne.symm h]
  | cons p rest ih =>
      obtain ⟨k', v'⟩ := p
      by_cases hk : k' = k
      · subst hk
        simp [storeSet, storeGet, Ne.symm h]
      · simp only [storeSet, if_neg hk, storeGet]
        by_cases hk2 : k' = k2
        · simp [hk2]
        · simp [hk2, ih]

theorem storeSet_storeSet (st : ResultStore) (k : String) (v1 v2 : JobRecord) :
    storeSet (storeSet st k v1) k v2 = storeSet st k v2 := by
  induction st with
  | nil => simp [storeSet]
  | cons p rest ih =>
      obtain ⟨k', v'⟩ := p
      by_cases h : k' = k
      · simp [storeSet, h]
      · simp [storeSet, h, ih]

theorem resultKey_injective {a b : String} (h : resultKey a = resultKey b) :
    a = b := by
  have h2 : "job_result:".data ++ a.data = "job_result:".data ++ b.data := by
    have hd := congrArg String.data h
    simpa [resultKey, String.data_append] using hd
  exact String.ext (List.append_cancel_left h2)

theorem brpop_append (q : List Wire) (w : Wire) :
    brpop (q ++ [w]) = some (w, q) := by
  induction q with
  | nil => simp [brpop]
  | cons x rest ih => simp [brpop, ih]

/-- `update_job_status` leaves every other job's record untouched. -/
theorem get_job_result_update_ne (now : Nat) (st : ResultStore)
    {job_id other : String} (status : String) (result : Option JObj)
    (error_message : Option String) (h : other ≠ job_id) :
    get_job_result (update_job_status now st job_id status result error_message) other
      = get_job_result st other := by
  have hk : resultKey other ≠ resultKey job_id := fun hk => h (resultKey_injective hk)
  simp [get_job_result, update_job_status, storeGet_storeSet_ne _ _ hk]

/-- `update_job_status` stores exactly the applied update under the job's key. -/
theorem get_job_result_update_self (now : Nat) (st : ResultStore)
    (job_id status : String) (result : Option JObj) (error_message : Option String) :
    get_job_result (update_job_status now st job_id status result error_message) job_id
      = some (applyStatusUpdate now (get_job_result st job_id) job_id status result
          error_message) := by
  simp [get_job_result, update_job_status, storeGet_storeSet_self]

/-- A consumption-loop iteration on a non-empty queue dequeues the payload at
the Redis tail (the end of the Lean list) and processes exactly it. -/
theorem consumeStep_append (h : JObj → Except String JObj) (now : Nat)
    (q : List Wire) (w : Wire) (st : ResultStore) :
    consumeStep h now ⟨q ++ [w], st⟩
      = ({ queue := q, store := (processWire h now st w).1 },
         (processWire h now st w).2) := by
  simp [consumeStep, brpop_append]

/-- Normal form of one record-level status update: keep the identity of the
existing record (or the synthesized pending one), overwrite `status`,
overwrite `result`/`errorMessage` exactly when the argument is truthy, and
stamp `completedAt` exactly when the new status is terminal. -/
theorem applyStatusUpdate_eq (now : Nat) (ex : Option JobRecord) (job_id : String)
    (status : String) (result : Option JObj) (error_message : Option String) :
    applyStatusUpdate now ex job_id status result error_message =
      { jobId := match ex with | some x => x.jobId | none => job_id,
        status := status,
        result :=
          if truthyOptObj result then result
          else match ex with | some x => x.result | none => none,
        errorMessage :=
          if truthyOptStr error_message then error_message
          else match ex with | some x => x.errorMessage | none => none,
        completedAt :=
          if status ∈ (["completed", "failed"] : List String) then some now
          else match ex with | some x => x.completedAt | none => none } := by
  cases ex <;> simp only [applyStatusUpdate] <;> split_ifs <;> rfl

theorem statusOf_update (now : Nat) (st : ResultStore) (job_id status : String)
    (result : Option JObj) (error_message : Option String) :
    statusOf (update_job_status now st job_id status result error_message) job_id
      = some status := by
  simp [statusOf, get_job_result_update_self, applyStatusUpdate_eq]

theorem resultOf_update (now : Nat) (st : ResultStore) (job_id status : String)
    (result : Option JObj) (error_message : Option String) :
    resultOf (update_job_status now st job_id status result error_message) job_id
      = if truthyOptObj result then result else resultOf st job_id := by
  simp only [resultOf, get_job_result_update_self, applyStatusUpdate_eq,
    Option.bind_some]
  cases hex : get_job_result st job_id <;> split_ifs <;> simp [hex]

theorem errorMessageOf_update (now : Nat) (st : ResultStore) (job_id status : String)
    (result : Option JObj) (error_message : Option String) :
    errorMessageOf (update_job_status now st job_id status result error_message) job_id
      = if truthyOptStr error_message then error_message
        else errorMessageOf st job_id := by
  simp only [errorMessageOf, get_job_result_update_self, applyStatusUpdate_eq,
    Option.bind_some]
  cases hex : get_job_result st job_id <;> split_ifs <;> simp [hex]

theorem completedAtOf_update (now : Nat) (st : ResultStore) (job_id status : String)
    (result : Option JObj) (error_message : Option String) :
    completedAtOf (update_job_status now st job_id status result error_message) job_id
      = if status ∈ (["completed", "failed"] : List String) then some now
        else completedAtOf st job_id := by
  simp only [completedAtOf, get_job_result_update_self, applyStatusUpdate_eq,
    Option.bind_some]
  cases hex : get_job_result st job_id <;> split_ifs <;> simp [hex]

/-- Re-applying the same record-level update is the identity, provided a
terminal status is re-applied at the same instant (the terminal branch
re-stamps `completedAt` with the current time). -/
theorem applyStatusUpdate_idem (t1 t2 : Nat) (ex : Option JobRecord)
    (job_id status : String) (result : Option JObj) (error_message : Option String)
    (hT : status ∈ (["completed", "failed"] : List String) → t2 = t1) :
    applyStatusUpdate t2 (some (applyStatusUpdate t1 ex job_id status result error_message))
        job_id status result error_message
      = applyStatusUpdate t1 ex job_id status result error_message := by
  by_cases hterm : status ∈ (["completed", "failed"] : List String)
  · cases hT hterm
    by_cases hr : truthyOptObj result <;> by_cases he : truthyOptStr error_message <;>
      simp [applyStatusUpdate_eq, hterm, hr, he]
  · by_cases hr : truthyOptObj result <;> by_cases he : truthyOptStr error_message <;>
      simp [applyStatusUpdate_eq, hterm, hr, he]

/-- Re-applying the same store-level status update is the identity under the
same timing condition. -/
theorem update_job_status_idem (t1 t2 : Nat) (st : ResultStore)
    (job_id status : String) (result : Option JObj) (error_message : Option String)
    (hT : status ∈ (["completed", "failed"] : List String) → t2 = t1) :
    update_job_status t2 (update_job_status t1 st job_id status result error_message)
        job_id status result error_message
      = update_job_status t1 st job_id status result error_message := by
  have hget : storeGet (update_job_status t1 st job_id status result error_message)
      (resultKey job_id)
      = some (applyStatusUpdate t1 (storeGet st (resultKey job_id)) job_id status
          result error_message) := by
    simp [update_job_status, storeGet_storeSet_self]
  show storeSet _ (resultKey job_id) _ = _
  rw [hget, applyStatusUpdate_idem t1 t2 _ _ _ _ _ hT]
  show storeSet (storeSet st (resultKey job_id) _) (resultKey job_id) _ = _
  rw [storeSet_storeSet]
  rfl

/-- One status update gives the queried job a `result` field exactly when the
call targeted it with a truthy `result`, or it already had one. -/
theorem hasResult_update (now : Nat) (st : ResultStore) (uid job_id status : String)
    (result : Option JObj) (error_message : Option String) :
    hasResult (update_job_status now st uid status result error_message) job_id
      = (((uid == job_id) && truthyOptObj result) || hasResult st job_id) := by
  by_cases hid : uid = job_id
  · subst hid
    simp only [hasResult, resultOf_update, beq_self_eq_true, Bool.true_and]
    by_cases hr : truthyOptObj result
    · rw [if_pos hr]
      cases result with
      | none => simp [truthyOptObj] at hr
      | some l => simp [hr]
    · simp [hr]
  · have hne : (uid == job_id) = false := by simp [hid]
    have hrec := get_job_result_update_ne now st status result error_message
      (Ne.symm hid)
    simp [hasResult, resultOf, hrec, hne]

/-- One status update gives the queried job an `errorMessage` field exactly
when the call targeted it with a truthy `error_message`, or it already had
one. -/
theorem hasError_update (now : Nat) (st : ResultStore) (uid job_id status : String)
    (result : Option JObj) (error_message : Option String) :
    hasError (update_job_status now st uid status result error_message) job_id
      = (((uid == job_id) && truthyOptStr error_message) || hasError st job_id) := by
  by_cases hid : uid = job_id
  · subst hid
    simp only [hasError, errorMessageOf_update, beq_self_eq_true, Bool.true_and]
    by_cases he : truthyOptStr error_message
    · rw [if_pos he]
      cases error_message with
      | none => simp [truthyOptStr] at he
      | some s => simp [he]
    · simp [he]
  · have hne : (uid == job_id) = false := by simp [hid]
    have hrec := get_job_result_update_ne now st status result error_message
      (Ne.symm hid)
    simp [hasError, errorMessageOf, hrec, hne]

/-- Running the loop for exactly as many iterations as the queue is long
drains it, processing the payloads in Redis-FIFO order (the reverse of the
Lean list, i.e. oldest — tail-most — first). -/
theorem runSteps_drain (h : JObj → Except String JObj) (now : Nat) (q : List Wire) :
    ∀ st : ResultStore,
      runSteps h now q.length ⟨q, st⟩
        = ({ queue := [], store := (runQueue h now q.reverse st).1 },
           (runQueue h now q.reverse st).2) := by
  induction q using List.reverseRecOn with
  | nil => intro st; rfl
  | append_singleton q w ih =>
      intro st
      have hlen : (q ++ [w]).length = q.length + 1 := by simp
      rw [hlen]
      simp only [runSteps, consumeStep_append, List.reverse_append,
        List.reverse_singleton, List.singleton_append, runQueue, ih]

/-- Processing a concatenation of wire lists processes the first list, then
the second against the resulting store, concatenating the event traces. -/
theorem runQueue_append (h : JObj → Except String JObj) (now : Nat)
    (l1 l2 : List Wire) : ∀ st : ResultStore,
    runQueue h now (l1 ++ l2) st
      = ((runQueue h now l2 (runQueue h now l1 st).1).1,
         (runQueue h now l1 st).2 ++ (runQueue h now l2 (runQueue h now l1 st).1).2) := by
  induction l1 with
  | nil => intro st; simp [runQueue]
  | cons w ws ih =>
      intro st
      simp only [List.cons_append, runQueue, List.append_eq, ih]

/-- A non-empty string is not `isEmpty` (Python truthiness of ids and error
messages). -/
theorem isEmpty_false_of_ne {s : String} (h : s ≠ "") : s.isEmpty = false := by
  cases hb : s.isEmpty with
  | false => rfl
  | true => exact absurd ((String.isEmpty_iff s).mp hb) h

/-! ## Claims -/

/-- Claim C1, counterexample: `update_job_status` is not idempotent as
stated.  Re-applying the very same `(job_id, status, result, error_message)`
tuple of a terminal update at a later instant (a retry) changes the
observable record: `completedAt` is re-stamped with the newer time. -/
theorem C1_counterexample :
    completedAtOf (update_job_status 1
        (update_job_status 0 [] "job-1" "completed" none none)
        "job-1" "completed" none none) "job-1"
      ≠ completedAtOf (update_job_status 0 [] "job-1" "completed" none none)
          "job-1" := by
  rw [show completedAtOf (update_job_status 1
        (update_job_status 0 [] "job-1" "completed" none none)
        "job-1" "completed" none none) "job-1" = some 1 from rfl,
      show completedAtOf (update_job_status 0 [] "job-1" "completed" none none)
        "job-1" = some 0 from rfl]
  decide

/-- Claim C1, amended: `update_job_status` is idempotent for non-terminal
statuses, and for terminal statuses when the repeat carries the same
timestamp; a later repeat of a terminal update leaves the observable
`status`, `result` and `errorMessage` unchanged and only re-stamps
`completedAt`. -/
theorem C1_set_status_idempotent (t1 t2 : Nat) (st : ResultStore)
    (job_id status : String) (result : Option JObj)
    (error_message : Option String) :
    ((status ∈ (["completed", "failed"] : List String) → t2 = t1) →
      update_job_status t2
          (update_job_status t1 st job_id status result error_message)
          job_id status result error_message
        = update_job_status t1 st job_id status result error_message)
    ∧ statusOf (update_job_status t2
          (update_job_status t1 st job_id status result error_message)
          job_id status result error_message) job_id
        = statusOf (update_job_status t1 st job_id status result error_message)
            job_id
    ∧ resultOf (update_job_status t2
          (update_job_status t1 st job_id status result error_message)
          job_id status result error_message) job_id
        = resultOf (update_job_status t1 st job_id status result error_message)
            job_id
    ∧ errorMessageOf (update_job_status t2
          (update_job_status t1 st job_id status result error_message)
          job_id status result error_message) job_id
        = errorMessageOf (update_job_status t1 st job_id status result error_message)
            job_id := by
  refine ⟨fun hT => update_job_status_idem t1 t2 st job_id status result
    error_message hT, ?_, ?_, ?_⟩
  · rw [statusOf_update, statusOf_update]
  · by_cases hr : truthyOptObj result <;> simp [resultOf_update, hr]
  · by_cases he : truthyOptStr error_message <;> simp [errorMessageOf_update, he]

/-- Witness for C1 at a concrete input: a terminal update repeated at the
same instant yields the same store. -/
theorem C1_witness :
    update_job_status 7
        (update_job_status 7 [] "job-1" "completed"
          (some [("success", JVal.jbool true)]) none)
        "job-1" "completed" (some [("success", JVal.jbool true)]) none
      = update_job_status 7 [] "job-1" "completed"
          (some [("success", JVal.jbool true)]) none :=
  (C1_set_status_idempotent 7 7 [] "job-1" "completed"
      (some [("success", JVal.jbool true)]) none).1 (fun _ => rfl)

/-- Claim C2, counterexample: a malformed payload does not produce a
`failed` Job Record.  The decode failure propagates to the loop's outer
handler, which logs and backs off; the result store is left completely
untouched (here: still empty), so no job is marked `failed`. -/
theorem C2_counterexample :
    (consumeStep okHandler 0 { queue := [Wire.malformed "not json"], store := [] }).1.store
      = ([] : ResultStore)
    ∧ (consumeStep okHandler 0
        { queue := [Wire.malformed "not json"], store := [] }).2
      = StepEvent.loopError "not json" :=
  ⟨rfl, rfl⟩

/-- Claim C2, amended: when the dequeued payload is malformed, the loop logs
the failure (the `loopError` event) and continues consuming from the same
queue, but writes no Job Record at all — the job id is unrecoverable from an
undecodable payload, and the message is dropped. -/
theorem C2_malformed_payload (h : JObj → Except String JObj) (now : Nat)
    (q : List Wire) (st : ResultStore) (raw : String) :
    consumeStep h now { queue := q ++ [Wire.malformed raw], store := st }
      = ({ queue := q, store := st }, StepEvent.loopError raw) := by
  rw [consumeStep_append]
  rfl

/-- Claim C3, counterexample: the `result` field is not present only when
`status = completed`.  A single update with a non-terminal status and a
truthy `result` argument stores the `result` field next to
`status = "pending"`. -/
theorem C3_counterexample :
    statusOf (update_job_status 0 [] "job-1" "pending"
        (some [("k", JVal.jnum 1)]) none) "job-1" = some "pending"
    ∧ resultOf (update_job_status 0 [] "job-1" "pending"
        (some [("k", JVal.jnum 1)]) none) "job-1" = some [("k", JVal.jnum 1)]
    ∧ ("pending" : String) ≠ "completed" :=
  ⟨rfl, rfl, by decide⟩

/-- Claim C3, amended: across any sequence of `update_job_status` calls, the
`result` field is present in a job's record exactly when some call targeted
that job with a truthy `result` argument (or the field was already there),
and likewise `errorMessage` for a truthy `error_message` argument; presence
is not constrained by the record's current status.  (The dispatcher happens
to pass `result` only with `completed` and `error_message` only with
`failed`, but the fields persist across later updates.) -/
theorem C3_field_presence (cs : List Call) (job_id : String) :
    ∀ st : ResultStore,
      hasResult (runCalls st cs) job_id
        = ((cs.any fun c => c.jobId == job_id && truthyOptObj c.result)
            || hasResult st job_id)
      ∧ hasError (runCalls st cs) job_id
        = ((cs.any fun c => c.jobId == job_id && truthyOptStr c.errorMessage)
            || hasError st job_id) := by
  induction cs with
  | nil => intro st; simp [runCalls]
  | cons c cs ih =>
      intro st
      obtain ⟨ih1, ih2⟩ :=
        ih (update_job_status c.now st c.jobId c.status c.result c.errorMessage)
      simp only [runCalls, List.any_cons, ih1, ih2, hasResult_update,
        hasError_update]
      constructor <;> simp [Bool.or_assoc, Bool.or_comm, Bool.or_left_comm]

/-- Claim C4, counterexample: `completedAt` is not set exactly once.  A
second terminal update for the same job re-stamps it: after a `completed`
update at instant 0 it reads 0, and after a repeated `completed` update at
instant 1 it reads 1. -/
theorem C4_counterexample :
    completedAtOf (update_job_status 0 [] "job-1" "completed" none none)
        "job-1" = some 0
    ∧ completedAtOf (update_job_status 1
        (update_job_status 0 [] "job-1" "completed" none none)
        "job-1" "completed" none none) "job-1" = some 1
    ∧ (some 1 : Option Nat) ≠ some 0 :=
  ⟨rfl, rfl, by decide⟩

/-- Claim C4, amended: every update whose status is terminal (`completed` or
`failed`) sets `completedAt` to the current instant — including repeated
terminal updates, which overwrite it — and updates to non-terminal statuses
never modify it. -/
theorem C4_completedAt (now : Nat) (st : ResultStore) (job_id status : String)
    (result : Option JObj) (error_message : Option String) :
    completedAtOf (update_job_status now st job_id status result error_message)
        job_id
      = if status ∈ (["completed", "failed"] : List String) then some now
        else completedAtOf st job_id :=
  completedAtOf_update now st job_id status result error_message

/-- Claim C5, counterexample: enqueue does not append to the tail of the
queue's list.  `publish_message` LPUSHes, i.e. prepends at the head: pushing
onto a non-empty queue puts the new payload first, not last. -/
theorem C5_counterexample :
    (publish_message [Wire.malformed "w0"] [] "analytics:data_processing"
        (JVal.jstr "m")).1
      = [Wire.json (JVal.jstr "m"), Wire.malformed "w0"]
    ∧ (publish_message [Wire.malformed "w0"] [] "analytics:data_processing"
        (JVal.jstr "m")).1
      ≠ [Wire.malformed "w0", Wire.json (JVal.jstr "m")] :=
  ⟨rfl, fun hEq => Wire.noConfusion (Option.some.inj (congrArg List.head? hEq))⟩

/-- Claim C5, amended: enqueue prepends the serialized message at the head of
the named queue's list and dequeue removes from the tail, so FIFO holds: for
messages A then B enqueued on the same queue, once the pre-existing backlog
is drained the loop processes A — applying A's `processing` transition and
its terminal write — in the step immediately before B's, as the event trace
shows. -/
theorem C5_fifo (h : JObj → Except String JObj) (now : Nat) (st : ResultStore)
    (q0 : List Wire) (a b : JVal) :
    runSteps h now (q0.length + 2)
        { queue := lpush (lpush q0 (Wire.json a)) (Wire.json b), store := st }
      = ({ queue := [],
           store := (processWire h now
             (processWire h now (runQueue h now q0.reverse st).1 (Wire.json a)).1
             (Wire.json b)).1 },
         (runQueue h now q0.reverse st).2
           ++ [(processWire h now (runQueue h now q0.reverse st).1 (Wire.json a)).2,
               (processWire h now
                 (processWire h now (runQueue h now q0.reverse st).1 (Wire.json a)).1
                 (Wire.json b)).2]) := by
  have h1 : lpush (lpush q0 (Wire.json a)) (Wire.json b)
      = Wire.json b :: Wire.json a :: q0 := rfl
  have h2 : (Wire.json b :: Wire.json a :: q0).length = q0.length + 2 := by simp
  rw [h1, ← h2, runSteps_drain]
  have h3 : (Wire.json b :: Wire.json a :: q0).reverse
      = q0.reverse ++ [Wire.json a, Wire.json b] := by simp
  rw [h3, runQueue_append]
  simp [runQueue]

/-- Claim C6: status updates are upserts.  When no record exists for a job
id, the update behaves exactly as if a fresh
`{"jobId": job_id, "status": "pending"}` record (no result, no error, no
completion time) had been read, and then the incoming update applied to it;
the write succeeds and the record afterwards carries the requested status. -/
theorem C6_upsert (now : Nat) (st : ResultStore) (job_id status : String)
    (result : Option JObj) (error_message : Option String)
    (habs : get_job_result st job_id = none) :
    get_job_result (update_job_status now st job_id status result error_message)
        job_id
      = some (applyStatusUpdate now (some { jobId := job_id, status := "pending" })
          job_id status result error_message)
    ∧ statusOf (update_job_status now st job_id status result error_message) job_id
      = some status := by
  constructor
  · rw [get_job_result_update_self, habs]
    rfl
  · exact statusOf_update now st job_id status result error_message

/-- Witness for C6 at a concrete input: the store is empty, and the first
update for the id behaves as an update of an explicit pending record. -/
theorem C6_witness :
    get_job_result ([] : ResultStore) "job-5" = none
    ∧ (get_job_result (update_job_status 4 [] "job-5" "processing" none none)
          "job-5"
        = some (applyStatusUpdate 4 (some { jobId := "job-5", status := "pending" })
            "job-5" "processing" none none)
      ∧ statusOf (update_job_status 4 [] "job-5" "processing" none none) "job-5"
        = some "processing") :=
  ⟨rfl, C6_upsert 4 [] "job-5" "processing" none none rfl⟩

/-- Claim C7, counterexample: a handler error whose stringification is empty
(`str(e) = ""`) yields a `failed` record with no `errorMessage` field at
all — not a record whose error message equals the stringified error — because
`update_job_status` drops falsy error messages. -/
theorem C7_counterexample :
    statusOf (consumeStep (failHandler "") 0
        { queue := [Wire.json (JVal.jobj [("id", JVal.jstr "job-1")])],
          store := [] }).1.store "job-1" = some "failed"
    ∧ errorMessageOf (consumeStep (failHandler "") 0
        { queue := [Wire.json (JVal.jobj [("id", JVal.jstr "job-1")])],
          store := [] }).1.store "job-1" = none
    ∧ (none : Option String) ≠ some "" :=
  ⟨rfl, rfl, by decide⟩

/-- Claim C7, amended: when the handler for a message with a (string,
non-empty) job id raises, the loop writes `processing` then a `failed`
record, records the stringified error as `errorMessage` when it is
non-empty (an empty stringification leaves whatever error message was
already stored), emits the `failedJob` event, and continues: the step is a
total function whose queue simply advances past the message. -/
theorem C7_handler_failure (h : JObj → Except String JObj) (now : Nat)
    (q : List Wire) (st : ResultStore) (message : JObj) (job_id e : String)
    (hid : jget message "id" = some (JVal.jstr job_id)) (hne : job_id ≠ "")
    (hfail : h message = .error e) :
    consumeStep h now { queue := q ++ [Wire.json (JVal.jobj message)], store := st }
      = ({ queue := q,
           store := update_job_status now
             (update_job_status now st job_id "processing" none none)
             job_id "failed" none (some e) },
         StepEvent.failedJob job_id e)
    ∧ statusOf (consumeStep h now
          { queue := q ++ [Wire.json (JVal.jobj message)], store := st }).1.store
        job_id = some "failed"
    ∧ errorMessageOf (consumeStep h now
          { queue := q ++ [Wire.json (JVal.jobj message)], store := st }).1.store
        job_id = (if e = "" then errorMessageOf st job_id else some e) := by
  have hmsg : pyTruthy (JVal.jobj message) = true := by
    cases message with
    | nil => simp [jget] at hid
    | cons p rest => simp [pyTruthy]
  have hidt : pyTruthy (JVal.jstr job_id) = true := by
    simp [pyTruthy, isEmpty_false_of_ne hne]
  have hstep : consumeStep h now
      { queue := q ++ [Wire.json (JVal.jobj message)], store := st }
      = ({ queue := q,
           store := update_job_status now
             (update_job_status now st job_id "processing" none none)
             job_id "failed" none (some e) },
         StepEvent.failedJob job_id e) := by
    rw [consumeStep_append]
    simp [processWire, hmsg, hid, hidt, hfail, pyStr]
  refine ⟨hstep, ?_, ?_⟩
  · rw [hstep]
    exact statusOf_update _ _ _ _ _ _
  · rw [hstep]
    by_cases he : e = ""
    · subst he
      rw [if_pos rfl, errorMessageOf_update,
        if_neg (by decide), errorMessageOf_update,
        if_neg (by decide)]
    · have ht : truthyOptStr (some e) = true := by
        simp [truthyOptStr, isEmpty_false_of_ne he]
      rw [if_neg he, errorMessageOf_update, if_pos ht]

/-- Witness for C7 at a concrete input: a handler raising `"boom"` yields a
`failed` record whose error message is `"boom"`. -/
theorem C7_witness :
    errorMessageOf (consumeStep (failHandler "boom") 2
        { queue := [Wire.json (JVal.jobj [("id", JVal.jstr "job-2")])],
          store := [] }).1.store "job-2"
      = (if ("boom" : String) = "" then errorMessageOf ([] : ResultStore) "job-2"
         else some "boom") :=
  (C7_handler_failure (failHandler "boom") 2 [] [] [("id", JVal.jstr "job-2")]
      "job-2" "boom" rfl (by decide) rfl).2.2

/-- Claim C8: `JobProcessor.start` launches exactly one consumption loop per
recognized kind, bound to queue `"analytics:<kind>"` for each of the five
kinds (distinct queues, distinct processors), and every
`publish_message` call pushes a single serialized payload onto the queue and
broadcasts that same payload on the `"<queue_name>:notification"` channel. -/
theorem C8_start_and_notify :
    startConsumers.map Prod.fst
        = recognizedKinds.map (fun kind => "analytics:" ++ kind)
    ∧ (startConsumers.map Prod.fst).Nodup
    ∧ (startConsumers.map Prod.snd).Nodup
    ∧ ∀ (queue : List Wire) (notifications : List (String × Wire))
        (queue_name : String) (message : JVal),
        ∃ w : Wire,
          (publish_message queue notifications queue_name message).1
              = lpush queue w
          ∧ (publish_message queue notifications queue_name message).2
              = notifications ++ [(queue_name ++ ":notification", w)] := by
  refine ⟨by decide, by decide, by decide, ?_⟩
  intro queue notifications queue_name message
  exact ⟨Wire.json message, rfl, rfl⟩

/-- Claim C9: a successfully dequeued and decoded `dict` message whose `id`
is missing or falsy is silently discarded: the result store is untouched (no
status update), the outcome does not depend on the handler (it is never
invoked), the step is a total function (nothing is raised), and the queue
simply advances to the next message. -/
theorem C9_missing_id (h : JObj → Except String JObj) (now : Nat)
    (q : List Wire) (st : ResultStore) (message : JObj)
    (hid : (jget message "id").all (fun v => !pyTruthy v) = true) :
    consumeStep h now { queue := q ++ [Wire.json (JVal.jobj message)], store := st }
      = ({ queue := q, store := st }, StepEvent.discarded) := by
  rw [consumeStep_append]
  cases message with
  | nil => rfl
  | cons p rest =>
      have hmsg : pyTruthy (JVal.jobj (p :: rest)) = true := by simp [pyTruthy]
      cases hg : jget (p :: rest) "id" with
      | none => simp [processWire, hmsg, hg]
      | some v =>
          have hv : pyTruthy v = false := by
            have := hid
            rw [hg] at this
            simpa using this
          simp [processWire, hmsg, hg, hv]

/-- Witness for C9 at a concrete input: a message whose `id` is the empty
string (falsy) is dropped without any store write. -/
theorem C9_witness :
    ((jget [("id", JVal.jstr "")] "id").all (fun v => !pyTruthy v)) = true
    ∧ consumeStep okHandler 3
        { queue := [] ++ [Wire.json (JVal.jobj [("id", JVal.jstr "")])],
          store := [] }
      = ({ queue := [], store := [] }, StepEvent.discarded) :=
  ⟨rfl, C9_missing_id okHandler 3 [] [] [("id", JVal.jstr "")] rfl⟩

/-- Claim C10: `update_job_status` treats field presence by truthiness.  A
call with `result = {}` (an empty mapping) leaves the stored `result` field
exactly as it was — in particular a completed record stays without a
`result` field when none was stored before — and a call with
`error_message = ""` leaves the stored `errorMessage` field as it was. -/
theorem C10_truthiness (now : Nat) (st : ResultStore) (job_id status : String) :
    resultOf (update_job_status now st job_id status (some []) none) job_id
        = resultOf st job_id
    ∧ errorMessageOf (update_job_status now st job_id status none (some ""))
          job_id
        = errorMessageOf st job_id
    ∧ (resultOf st job_id = none →
        statusOf (update_job_status now st job_id "completed" (some []) none)
            job_id = some "completed"
        ∧ resultOf (update_job_status now st job_id "completed" (some []) none)
            job_id = none) := by
  refine ⟨?_, ?_, fun habs => ⟨statusOf_update _ _ _ _ _ _, ?_⟩⟩
  · rw [resultOf_update, if_neg (by decide)]
  · rw [errorMessageOf_update, if_neg (by decide)]
  · rw [resultOf_update, if_neg (by decide)]
    exact habs

/-- Witness for C10 at a concrete input: a `completed` update carrying an
empty-dict result for a fresh job yields a completed record without a
`result` field. -/
theorem C10_witness :
    resultOf ([] : ResultStore) "job-9" = none
    ∧ statusOf (update_job_status 3 [] "job-9" "completed" (some []) none)
        "job-9" = some "completed"
    ∧ resultOf (update_job_status 3 [] "job-9" "completed" (some []) none)
        "job-9" = none :=
  ⟨rfl, (C10_truthiness 3 [] "job-9" "completed").2.2 rfl⟩

end MessageQueue
